import Mathlib

/-!
Verification development for the ai-crypto-trader decision-and-execution
pipeline.  Each section shallowly embeds one part of the Python source
(server/app and server/worker) as executable Lean definitions and proves the
specified properties about them.
-/

set_option maxRecDepth 4000

/-! ## SHA-256 (faithful executable model of hashlib.sha256 used by
`generate_client_order_id` in app/ai/risk_manager.py) -/

namespace Sha256

def w32 : Nat := 4294967296

def add32 (a b : Nat) : Nat := (a + b) % w32

def rotr (n x : Nat) : Nat := ((x >>> n) ||| (x <<< (32 - n))) % w32

def smallSigma0 (x : Nat) : Nat := (rotr 7 x) ^^^ (rotr 18 x) ^^^ (x >>> 3)

def smallSigma1 (x : Nat) : Nat := (rotr 17 x) ^^^ (rotr 19 x) ^^^ (x >>> 10)

def bigSigma0 (x : Nat) : Nat := (rotr 2 x) ^^^ (rotr 13 x) ^^^ (rotr 22 x)

def bigSigma1 (x : Nat) : Nat := (rotr 6 x) ^^^ (rotr 11 x) ^^^ (rotr 25 x)

def chFn (x y z : Nat) : Nat := (x &&& y) ^^^ ((x ^^^ 4294967295) &&& z)

def majFn (x y z : Nat) : Nat := (x &&& y) ^^^ (x &&& z) ^^^ (y &&& z)

def kConsts : Array Nat := #[
  1116352408, 1899447441, 3049323471, 3921009573, 961987163,
  1508970993, 2453635748, 2870763221, 3624381080, 310598401,
  607225278, 1426881987, 1925078388, 2162078206, 2614888103,
  3248222580, 3835390401, 4022224774, 264347078, 604807628,
  770255983, 1249150122, 1555081692, 1996064986, 2554220882,
  2821834349, 2952996808, 3210313671, 3336571891, 3584528711,
  113926993, 338241895, 666307205, 773529912, 1294757372,
  1396182291, 1695183700, 1986661051, 2177026350, 2456956037,
  2730485921, 2820302411, 3259730800, 3345764771, 3516065817,
  3600352804, 4094571909, 275423344, 430227734, 506948616,
  659060556, 883997877, 958139571, 1322822218, 1537002063,
  1747873779, 1955562222, 2024104815, 2227730452, 2361852424,
  2428436474, 2756734187, 3204031479, 3329325298]

def hInit : List Nat :=
  [1779033703, 3144134277, 1013904242, 2773480762,
   1359893119, 2600822924, 528734635, 1541459225]

def schedule (block : Array Nat) : Array Nat :=
  (List.range 48).foldl
    (fun w i =>
      let t := i + 16
      w.push (add32 (add32 (smallSigma1 (w[t-2]!)) (w[t-7]!))
                    (add32 (smallSigma0 (w[t-15]!)) (w[t-16]!))))
    block

def roundStep (k w : Nat) :
    Nat × Nat × Nat × Nat × Nat × Nat × Nat × Nat →
    Nat × Nat × Nat × Nat × Nat × Nat × Nat × Nat :=
  fun (a, b, c, d, e, f, g, h) =>
    let t1 := add32 (add32 (add32 h (bigSigma1 e)) (add32 (chFn e f g) k)) w
    let t2 := add32 (bigSigma0 a) (majFn a b c)
    (add32 t1 t2, a, b, c, add32 d t1, e, f, g)

def compress (hs : List Nat) (block : Array Nat) : List Nat :=
  let w := schedule block
  match hs with
  | [h0, h1, h2, h3, h4, h5, h6, h7] =>
    let st := (List.range 64).foldl
      (fun st i => roundStep (kConsts[i]!) (w[i]!) st)
      (h0, h1, h2, h3, h4, h5, h6, h7)
    match st with
    | (a, b, c, d, e, f, g, h) =>
      [add32 h0 a, add32 h1 b, add32 h2 c, add32 h3 d,
       add32 h4 e, add32 h5 f, add32 h6 g, add32 h7 h]
  | other => other

def padMessage (msg : List Nat) : List Nat :=
  let len := msg.length
  let zeros := (119 - len % 64) % 64
  let bitLen := len * 8
  msg ++ [0x80] ++ List.replicate zeros 0 ++
    [(bitLen >>> 56) % 256, (bitLen >>> 48) % 256, (bitLen >>> 40) % 256,
     (bitLen >>> 32) % 256, (bitLen >>> 24) % 256, (bitLen >>> 16) % 256,
     (bitLen >>> 8) % 256, bitLen % 256]

def bytesToWords : List Nat → List Nat
  | a :: b :: c :: d :: rest => (((a * 256 + b) * 256 + c) * 256 + d) :: bytesToWords rest
  | _ => []

def chunk16Aux : Nat → List Nat → List (Array Nat)
  | 0, _ => []
  | _, [] => []
  | fuel + 1, l => (l.take 16).toArray :: chunk16Aux fuel (l.drop 16)

def chunk16 (l : List Nat) : List (Array Nat) := chunk16Aux l.length l

def sha256Words (msg : List Nat) : List Nat :=
  (chunk16 (bytesToWords (padMessage msg))).foldl compress hInit

def hexDigitChar (n : Nat) : Char :=
  if n < 10 then Char.ofNat (48 + n) else Char.ofNat (87 + n)

def toHex8 (x : Nat) : String :=
  String.mk ((List.range 8).map (fun i => hexDigitChar ((x >>> (28 - 4 * i)) % 16)))

def hexdigest (msg : List Nat) : String :=
  String.join ((sha256Words msg).map toHex8)

end Sha256

/-! ## C1 data model: datetime bucket and generate_client_order_id
(app/ai/risk_manager.py lines 265-275) -/

structure PyDatetime where
  year : Nat
  month : Nat
  day : Nat
  hour : Nat
  minute : Nat
  second : Nat
  microsecond : Nat
deriving DecidableEq, Repr

/-- Zero-padded decimal rendering, as CPython strftime pads %Y/%m/%d/%H/%M. -/
def padNum (width n : Nat) : String :=
  let s := toString n
  String.mk (List.replicate (width - s.length) '0') ++ s

/-- Embeds timestamp.strftime of the pattern with year, month, day, hour and
minute fields, the bucket used by generate_client_order_id. -/
def strftimeBucket (t : PyDatetime) : String :=
  padNum 4 t.year ++ padNum 2 t.month ++ padNum 2 t.day ++
    padNum 2 t.hour ++ padNum 2 t.minute

/-- ASCII bytes of a string, matching str.encode() for ASCII input. -/
def strBytes (s : String) : List Nat := s.data.map Char.toNat

/-- Embeds generate_client_order_id from app/ai/risk_manager.py: sha256 of
"trader:signal:bucket", first 16 hex digits, prefixed with "T". -/
def generate_client_order_id (trader_id signal_id : String) (t : PyDatetime) : String :=
  let data := trader_id ++ ":" ++ signal_id ++ ":" ++ strftimeBucket t
  let hash_hex := String.mk ((Sha256.hexdigest (strBytes data)).data.take 16)
  "T" ++ hash_hex

/-- Two timestamps fall in the same calendar minute. -/
def sameMinute (t1 t2 : PyDatetime) : Prop :=
  t1.year = t2.year ∧ t1.month = t2.month ∧ t1.day = t2.day ∧
    t1.hour = t2.hour ∧ t1.minute = t2.minute

instance (t1 t2 : PyDatetime) : Decidable (sameMinute t1 t2) := by
  unfold sameMinute; infer_instance

/-! ## Rounding helpers: Decimal.quantize and Python round
(app/ai/risk_manager.py, app/adapters/base.py) -/

/-- Truncation toward zero, the ROUND_DOWN policy of Decimal.quantize. -/
def truncTowardZero (q : ℚ) : Int := if 0 ≤ q then ⌊q⌋ else -⌊-q⌋

/-- Embeds Decimal.quantize with rounding=ROUND_DOWN at a decimal precision,
as used by RiskManager._calculate_quantity. -/
def quantizeRoundDown (q : ℚ) (p : Nat) : ℚ :=
  (truncTowardZero (q * 10 ^ p) : ℚ) / 10 ^ p

/-- Round half to even (banker's rounding) to an integer: the default
Decimal.quantize policy and the policy of the Python builtin round. -/
def halfEven (q : ℚ) : Int :=
  let n := ⌊q⌋
  let f := q - n
  if f < 1 / 2 then n
  else if 1 / 2 < f then n + 1
  else if n % 2 = 0 then n else n + 1

/-- Embeds Decimal.quantize with the default ROUND_HALF_EVEN policy at a
decimal precision. -/
def quantizeHalfEven (q : ℚ) (p : Nat) : ℚ :=
  (halfEven (q * 10 ^ p) : ℚ) / 10 ^ p

/-- Embeds ExchangeAdapter.round_quantity (app/adapters/base.py lines
161-163): Decimal(str(round(float(quantity), precision))).  The Python
builtin round applies round-half-to-even; it is modelled on exact rationals
(the float detour of the source does not change the value at the precisions
and magnitudes of the quantities exercised here). -/
def round_quantity (quantity : ℚ) (precision : Nat) : ℚ :=
  quantizeHalfEven quantity precision

/-- Embeds ExchangeAdapter.round_price (app/adapters/base.py lines 157-159),
the same rounding applied to prices. -/
def round_price (price : ℚ) (precision : Nat) : ℚ :=
  quantizeHalfEven price precision

/-! ## Risk manager data model (app/ai/risk_manager.py) -/

structure RiskProfile where
  max_leverage : Int
  max_position_notional : Option ℚ
  max_position_qty : Option ℚ
  max_concurrent_positions : Nat
  cooldown_seconds : Int
  daily_loss_cap : Option ℚ
  price_precision : Nat
  quantity_precision : Nat
  min_quantity : ℚ
  min_notional : ℚ
deriving DecidableEq, Repr

/-- One entry of AccountState.recent_trades: a dict with symbol, side and
created_at keys (worker/tasks/trader.py _get_account_state). -/
structure RecentTrade where
  symbol : Option String
  side : Option String
  created_at : Int
deriving DecidableEq, Repr

structure AccountState where
  available_balance : ℚ
  open_positions : Nat
  current_daily_pnl : ℚ
  recent_trades : List RecentTrade
deriving DecidableEq, Repr

/-- Embeds contracts.EntryConfig. -/
structure EntryConfig where
  type : String
  price : Option ℚ
deriving DecidableEq, Repr

/-- Embeds contracts.PositionSize. -/
structure PositionSize where
  mode : String
  value : ℚ
deriving DecidableEq, Repr

/-- Embeds contracts.TPSLConfig. -/
structure TPSLConfig where
  mode : String
  value : ℚ
deriving DecidableEq, Repr

/-- Embeds contracts.TradePlanOutput (the fields read by the risk manager
and orchestrator). -/
structure TradePlanOutput where
  action : String
  symbol : Option String
  side : Option String
  entry : Option EntryConfig
  position_size : Option PositionSize
  leverage : Int
  tp : Option TPSLConfig
  sl : Option TPSLConfig
  time_in_force : Option String
deriving DecidableEq, Repr

structure NormalizedPlan where
  symbol : Option String
  side : Option String
  quantity : Option ℚ
  leverage : Int
  entry_type : String
  entry_price : Option ℚ
  tp_price : Option ℚ
  sl_price : Option ℚ
  time_in_force : Option String
deriving DecidableEq, Repr

/-- The risk-reason strings produced by RiskManager.check, one constructor
per f-string in the source, carrying the interpolated values. -/
inductive RiskReason where
  | actionIsSkip
  | closeAllowed
  | unknownAction (action : String)
  | missingFields
  | leverageExceedsMax (leverage maxLeverage : Int)
  | maxConcurrentReached (maxPositions : Nat)
  | couldNotCalcQuantity
  | notionalExceedsMax (notional maxNotional : ℚ)
  | qtyExceedsMax (qty maxQty : ℚ)
  | qtyBelowMin (qty minQty : ℚ)
  | notionalBelowMin (notional minNotional : ℚ)
  | dailyLossCapExceeded (cap : ℚ)
  | cooldownActive (symbol side : Option String) (seconds : Int)
  | insufficientMargin (needed balance : ℚ)
deriving DecidableEq, Repr

structure RiskReport where
  allowed : Bool
  reasons : List RiskReason
  normalized_plan : Option NormalizedPlan
deriving DecidableEq, Repr

/-- Python truthiness of an optional string: None and the empty string are
falsy. -/
def truthyStr : Option String → Bool
  | none => false
  | some s => !(s == "")

/-- Python truthiness of an optional Decimal: None and zero are falsy. -/
def truthyQ : Option ℚ → Bool
  | none => false
  | some q => !(q == 0)

/-- Embeds RiskManager._calculate_quantity (lines 170-193). -/
def calculateQuantity (plan : TradePlanOutput) (profile : RiskProfile)
    (currentPrice : Option ℚ) : Option ℚ :=
  match plan.position_size with
  | none => none
  | some ps =>
    let raw : Option ℚ :=
      if ps.mode == "qty" then some ps.value
      else if ps.mode == "notional" then
        match currentPrice with
        | none => none
        | some p => if p ≤ 0 then none else some (ps.value / p)
      else none
    match raw with
    | none => none
    | some qty =>
      let q := quantizeRoundDown qty profile.quantity_precision
      if 0 < q then some q else none

/-- Embeds RiskManager._check_cooldown (lines 195-213); `now` stands for
datetime.utcnow() on an integer-seconds timeline. -/
def checkCooldown (symbol side : Option String) (trades : List RecentTrade)
    (cooldownSeconds : Int) (now : Int) : Option RiskReason :=
  let cutoff := now - cooldownSeconds
  if trades.any (fun tr => tr.symbol == symbol && tr.side == side &&
      decide (cutoff < tr.created_at))
  then some (.cooldownActive symbol side cooldownSeconds) else none

/-- Embeds RiskManager._normalize_plan (lines 215-262). -/
def normalizePlan (plan : TradePlanOutput) (quantity : Option ℚ)
    (profile : RiskProfile) (currentPrice : Option ℚ) : NormalizedPlan :=
  let entry_price : Option ℚ :=
    match plan.entry with
    | none => none
    | some e =>
      match e.price with
      | none => none
      | some pr =>
        if pr == 0 then none
        else some (quantizeHalfEven pr profile.price_precision)
  let tp_price : Option ℚ :=
    match currentPrice, plan.tp with
    | some cp, some tp =>
      if cp == 0 then none
      else
        let raw := if tp.mode == "percent" then
            (if plan.side == some "long" then cp * (1 + tp.value / 100)
             else cp * (1 - tp.value / 100))
          else tp.value
        some (quantizeHalfEven raw profile.price_precision)
    | _, _ => none
  let sl_price : Option ℚ :=
    match currentPrice, plan.sl with
    | some cp, some sl =>
      if cp == 0 then none
      else
        let raw := if sl.mode == "percent" then
            (if plan.side == some "long" then cp * (1 - sl.value / 100)
             else cp * (1 + sl.value / 100))
          else sl.value
        some (quantizeHalfEven raw profile.price_precision)
    | _, _ => none
  { symbol := plan.symbol
    side := plan.side
    quantity := quantity
    leverage := min plan.leverage profile.max_leverage
    entry_type := (match plan.entry with | some e => e.type | none => "market")
    entry_price := entry_price
    tp_price := tp_price
    sl_price := sl_price
    time_in_force := plan.time_in_force }

/-- The reasons accumulated for an open-action plan by RiskManager.check
(lines 91-160), in source order: leverage, concurrent positions, the
quantity block, daily loss cap, cooldown, margin. -/
def openReasons (plan : TradePlanOutput) (profile : RiskProfile)
    (account : AccountState) (currentPrice : Option ℚ) (now : Int)
    (quantity : Option ℚ) : List RiskReason :=
  (if profile.max_leverage < plan.leverage then
    [.leverageExceedsMax plan.leverage profile.max_leverage] else [])
  ++ (if profile.max_concurrent_positions ≤ account.open_positions then
    [.maxConcurrentReached profile.max_concurrent_positions] else [])
  ++ (match quantity with
      | none => [.couldNotCalcQuantity]
      | some q =>
        (match profile.max_position_notional, currentPrice with
         | some maxN, some p =>
           if maxN == 0 || p == 0 then []
           else if maxN < q * p then [.notionalExceedsMax (q * p) maxN] else []
         | _, _ => [])
        ++ (match profile.max_position_qty with
            | some maxQ =>
              if maxQ == 0 then []
              else if maxQ < q then [.qtyExceedsMax q maxQ] else []
            | none => [])
        ++ (if q < profile.min_quantity then [.qtyBelowMin q profile.min_quantity] else [])
        ++ (match currentPrice with
            | some p =>
              if p == 0 then []
              else if q * p < profile.min_notional then
                [.notionalBelowMin (q * p) profile.min_notional] else []
            | none => []))
  ++ (match profile.daily_loss_cap with
      | some cap =>
        if cap == 0 then []
        else if account.current_daily_pnl < -cap then [.dailyLossCapExceeded cap] else []
      | none => [])
  ++ (checkCooldown plan.symbol plan.side account.recent_trades
        profile.cooldown_seconds now).toList
  ++ (match quantity, currentPrice with
      | some q, some p =>
        if q == 0 || p == 0 || plan.leverage == 0 then []
        else
          let margin := q * p / (plan.leverage : ℚ)
          if account.available_balance < margin then
            [.insufficientMargin margin account.available_balance] else []
      | _, _ => [])

/-- Embeds RiskManager.check (app/ai/risk_manager.py lines 59-168). -/
def check (plan : TradePlanOutput) (profile : RiskProfile)
    (account : AccountState) (currentPrice : Option ℚ) (now : Int) : RiskReport :=
  if plan.action == "skip" then ⟨true, [.actionIsSkip], none⟩
  else if plan.action == "close" then ⟨true, [.closeAllowed], none⟩
  else if !(plan.action == "open") then ⟨false, [.unknownAction plan.action], none⟩
  else if !(truthyStr plan.symbol) || !(truthyStr plan.side) ||
      plan.position_size.isNone then
    ⟨false, [.missingFields], none⟩
  else
    let quantity := calculateQuantity plan profile currentPrice
    let reasons := openReasons plan profile account currentPrice now quantity
    if reasons.isEmpty then
      ⟨true, [], some (normalizePlan plan quantity profile currentPrice)⟩
    else ⟨false, reasons, none⟩

/-- Python string slicing s[:n], used for error-message truncation. -/
def strTake (s : String) (n : Nat) : String := String.mk (s.data.take n)

/-! ## Model provider retry loop (app/ai/model_router.py lines 66-97) -/

inductive ModelErrorType where
  | auth | quota | rateLimited | invalidOutput | timedOut | network | unknown
deriving DecidableEq, Repr

structure ModelResponse where
  success : Bool
  content : Option String
  error_type : Option ModelErrorType
  error_message : Option String
deriving DecidableEq, Repr

/-- One behaviour of the underlying abstract generate call: it either
returns a ModelResponse or raises. -/
inductive GenOutcome where
  | resp (r : ModelResponse)
  | exc (msg : String)
deriving DecidableEq, Repr

/-- The ModelResponse built in the except branch of generate_with_retry. -/
def networkErrorResponse (msg : String) : ModelResponse :=
  ⟨false, none, some .network, some (strTake msg 200)⟩

/-- The fallback response when last_error is still None after the loop. -/
def maxRetriesResponse : ModelResponse :=
  ⟨false, none, some .unknown, some "Max retries exceeded"⟩

/-- Embeds the loop body of BaseModelAdapter.generate_with_retry.  The
adapter's generate is abstracted as a map from attempt index to outcome;
the second component counts the generate calls made. -/
def generateWithRetryGo (gen : Nat → GenOutcome) :
    Nat → Nat → Option ModelResponse → ModelResponse × Nat
  | _, 0, lastError => (lastError.getD maxRetriesResponse, 0)
  | attempt, fuel + 1, _ =>
    match gen attempt with
    | .resp r =>
      if r.success then (r, 1)
      else if r.error_type == some .auth || r.error_type == some .quota then (r, 1)
      else
        let rest := generateWithRetryGo gen (attempt + 1) fuel (some r)
        (rest.1, rest.2 + 1)
    | .exc m =>
      let rest := generateWithRetryGo gen (attempt + 1) fuel (some (networkErrorResponse m))
      (rest.1, rest.2 + 1)

/-- Embeds BaseModelAdapter.generate_with_retry (app/ai/model_router.py lines
66-97): up to max_retries attempts starting at attempt 0. -/
def generate_with_retry (gen : Nat → GenOutcome) (maxRetries : Nat) :
    ModelResponse × Nat :=
  generateWithRetryGo gen 0 maxRetries none

/-! ## Binance adapter order placement (app/adapters/binance.py) -/

inductive OrderStatus where
  | statusNew | statusPartFilled | statusFilled | statusCanceled
  | statusRejected | statusExpired
deriving DecidableEq, Repr

/-- The string value of each OrderStatus member (app/adapters/base.py). -/
def orderStatusValue : OrderStatus → String
  | .statusNew => "NEW"
  | .statusPartFilled => "PARTIALLY_FILLED"
  | .statusFilled => "FILLED"
  | .statusCanceled => "CANCELED"
  | .statusRejected => "REJECTED"
  | .statusExpired => "EXPIRED"

/-- Embeds BinanceAdapter.STATUS_MAP.get(s, OrderStatus.NEW). -/
def statusMap (s : String) : OrderStatus :=
  if s == "NEW" then .statusNew
  else if s == "PARTIALLY_FILLED" then .statusPartFilled
  else if s == "FILLED" then .statusFilled
  else if s == "CANCELED" then .statusCanceled
  else if s == "REJECTED" then .statusRejected
  else if s == "EXPIRED" then .statusExpired
  else .statusNew

/-- The fields of a Binance order-endpoint JSON response read by
_parse_order_result; a missing or empty field is None. -/
structure OrderData where
  orderId : Option String
  clientOrderId : Option String
  status : Option String
  executedQty : Option ℚ
  avgPrice : Option ℚ
deriving DecidableEq, Repr

structure OrderResult where
  success : Bool
  order_id : Option String
  client_order_id : Option String
  status : Option OrderStatus
  filled_qty : Option ℚ
  filled_price : Option ℚ
  error_code : Option String
  error_message : Option String
  raw_response : Option OrderData
deriving DecidableEq, Repr

/-- Embeds BinanceAdapter._parse_order_result (binance.py lines 169-178).
The avgPrice guard mirrors data.get("avgPrice") and data.avgPrice != "0". -/
def parseOrderResult (d : OrderData) (success : Bool) : OrderResult :=
  { success := success
    order_id := some (d.orderId.getD "")
    client_order_id := d.clientOrderId
    status := some (statusMap (d.status.getD ""))
    filled_qty := d.executedQty
    filled_price := (match d.avgPrice with
      | some p => if p == 0 then none else some p
      | none => none)
    error_code := none
    error_message := none
    raw_response := some d }

/-- The outcome of BinanceAdapter._request for one call: a parsed JSON body,
an httpx.HTTPStatusError raised by raise_for_status, or a transport-level
exception (connect error, timeout) raised from within httpx. -/
inductive ReqOutcome where
  | ok (data : OrderData)
  | httpStatusError (code : Nat) (text : String)
  | transportExc (msg : String)
deriving DecidableEq, Repr

/-- The error OrderResult built in the except httpx.HTTPStatusError branch
of each placement method. -/
def httpErrorOrderResult (code : Nat) (text : String) : OrderResult :=
  { success := false
    order_id := none
    client_order_id := none
    status := none
    filled_qty := none
    filled_price := none
    error_code := some (toString code)
    error_message := some text
    raw_response := none }

/-- Embeds BinanceAdapter.place_market_order (binance.py lines 180-201):
only httpx.HTTPStatusError is caught; any other exception propagates
(modelled as Except.error). -/
def place_market_order (outcome : ReqOutcome) : Except String OrderResult :=
  match outcome with
  | .ok d => .ok (parseOrderResult d true)
  | .httpStatusError code text => .ok (httpErrorOrderResult code text)
  | .transportExc m => .error m

/-- Embeds BinanceAdapter.place_take_profit (binance.py lines 203-227),
identical error handling to place_market_order. -/
def place_take_profit (outcome : ReqOutcome) : Except String OrderResult :=
  match outcome with
  | .ok d => .ok (parseOrderResult d true)
  | .httpStatusError code text => .ok (httpErrorOrderResult code text)
  | .transportExc m => .error m

/-- Embeds BinanceAdapter.place_stop_loss (binance.py lines 229-253),
identical error handling to place_market_order. -/
def place_stop_loss (outcome : ReqOutcome) : Except String OrderResult :=
  match outcome with
  | .ok d => .ok (parseOrderResult d true)
  | .httpStatusError code text => .ok (httpErrorOrderResult code text)
  | .transportExc m => .error m

/-- Embeds BinanceAdapter.set_leverage (binance.py lines 159-167): business
rejections return false, transport errors propagate. -/
def set_leverage (outcome : ReqOutcome) : Except String Bool :=
  match outcome with
  | .ok _ => .ok true
  | .httpStatusError _ _ => .ok false
  | .transportExc m => .error m

/-! ## Trade execution (worker/tasks/trader.py _execute_trade, lines 126-226) -/

/-- One Execution row as created by _execute_trade. -/
structure ExecutionRow where
  order_type : String
  exchange_order_id : Option String
  client_order_id : String
  symbol : Option String
  side : String
  quantity : Option ℚ
  price : Option ℚ
  status : String
  is_paper : Bool
deriving DecidableEq, Repr

/-- One TradePlan row, the fields written by _execute_trade. -/
structure TradePlanRow where
  client_order_id : String
  symbol : Option String
  side : Option String
  quantity : Option ℚ
  tp_price : Option ℚ
  sl_price : Option ℚ
  leverage : ℚ
  status : String
  is_paper : Bool
  entry_price : Option ℚ
  error_message : Option String
  entry_order : Option OrderData
  tp_order : Option OrderData
  sl_order : Option OrderData
deriving DecidableEq, Repr

/-- The adapter's behaviour during one _execute_trade call: the outcome of
each exchange request it may make. -/
structure AdapterBehavior where
  setLeverageOutcome : ReqOutcome
  marketOrderOutcome : ReqOutcome
  takeProfitOutcome : ReqOutcome
  stopLossOutcome : ReqOutcome
deriving DecidableEq, Repr

/-- Embeds worker/tasks/trader.py _execute_trade (lines 126-226).  The
except-Exception handler at the end of the function is modelled by the
Except.error cases: whatever TradePlan state the raise interrupted gets
status "failed" and error_message str(e)[:500].  Returns the TradePlan row
and the Execution rows added. -/
def executeTrade (np : NormalizedPlan) (isPaper : Bool) (clientOrderId : String)
    (adapter : AdapterBehavior) : TradePlanRow × List ExecutionRow :=
  let plan0 : TradePlanRow :=
    { client_order_id := clientOrderId
      symbol := np.symbol
      side := np.side
      quantity := np.quantity
      tp_price := np.tp_price
      sl_price := np.sl_price
      leverage := (np.leverage : ℚ)
      status := "pending"
      is_paper := isPaper
      entry_price := none
      error_message := none
      entry_order := none
      tp_order := none
      sl_order := none }
  if isPaper then
    let simPrice : ℚ := (match np.entry_price with
      | some p => if p == 0 then 50000 else p
      | none => 50000)
    let p1 := { plan0 with status := "entry_filled", entry_price := some simPrice }
    let p2 := if truthyQ np.tp_price || truthyQ np.sl_price then
        { p1 with status := "tp_sl_placed" } else p1
    (p2, [])
  else
    match set_leverage adapter.setLeverageOutcome with
    | .error e => ({ plan0 with status := "failed", error_message := some (strTake e 500) }, [])
    | .ok _ =>
      match place_market_order adapter.marketOrderOutcome with
      | .error e => ({ plan0 with status := "failed", error_message := some (strTake e 500) }, [])
      | .ok result =>
        let orderSide := if np.side == some "long" then "BUY" else "SELL"
        let entryExec : ExecutionRow :=
          { order_type := "entry"
            exchange_order_id := result.order_id
            client_order_id := clientOrderId
            symbol := np.symbol
            side := orderSide
            quantity := np.quantity
            price := result.filled_price
            status := (match result.status with
              | some st => orderStatusValue st
              | none => "pending")
            is_paper := false }
        if result.success then
          let p1 := { plan0 with
            status := "entry_filled"
            entry_price := result.filled_price
            entry_order := result.raw_response }
          if truthyQ np.tp_price || truthyQ np.sl_price then
            let afterTP : Except String TradePlanRow :=
              if truthyQ np.tp_price then
                match place_take_profit adapter.takeProfitOutcome with
                | .error e => .error e
                | .ok tpRes => .ok { p1 with tp_order := tpRes.raw_response }
              else .ok p1
            match afterTP with
            | .error e =>
              ({ p1 with status := "failed", error_message := some (strTake e 500) }, [entryExec])
            | .ok p2 =>
              let afterSL : Except String TradePlanRow :=
                if truthyQ np.sl_price then
                  match place_stop_loss adapter.stopLossOutcome with
                  | .error e => .error e
                  | .ok slRes => .ok { p2 with sl_order := slRes.raw_response }
                else .ok p2
              match afterSL with
              | .error e =>
                ({ p2 with status := "failed", error_message := some (strTake e 500) }, [entryExec])
              | .ok p3 => ({ p3 with status := "tp_sl_placed" }, [entryExec])
          else (p1, [entryExec])
        else
          ({ plan0 with status := "failed", error_message := result.error_message }, [entryExec])

/-! ## Orchestrator post-risk step (worker/tasks/trader.py lines 393-408) -/

/-- What the orchestrator does right after risk_manager.check for a non-skip
plan: blocked on allowed=false, otherwise it reads
risk_report.normalized_plan.symbol and the sibling fields.  When
normalized_plan is None, that attribute access raises, modelled by the
noneDereference constructor. -/
inductive PostRiskResult where
  | blocked (reasons : List RiskReason)
  | noneDereference
  | persisted (np : NormalizedPlan)
deriving DecidableEq, Repr

def postRiskStep (report : RiskReport) : PostRiskResult :=
  if !report.allowed then .blocked report.reasons
  else
    match report.normalized_plan with
    | none => .noneDereference
    | some np => .persisted np

/-! ## Distributed lock (app/core/locks.py RedisLock, lines 47-77) -/

namespace RedisLockModel

/-- Embeds redis SET key token NX EX ttl on one key: the store holds the
token currently set, if any.  Returns the new store and the truthiness of
the reply. -/
def setNX (store : Option String) (token : String) : Option String × Bool :=
  match store with
  | none => (some token, true)
  | some t => (some t, false)

/-- Embeds the Lua compare-and-delete script of RedisLock.release: delete
only when the stored value equals the caller's token. -/
def compareAndDelete (store : Option String) (token : String) :
    Option String × Bool :=
  match store with
  | some t => if t == token then (none, true) else (some t, false)
  | none => (none, false)

/-- One RedisLock instance: its random per-lock token and its local
_acquired flag. -/
structure LockInst where
  token : String
  acquired : Bool
deriving DecidableEq, Repr

/-- Embeds RedisLock._try_acquire. -/
def tryAcquire (store : Option String) (l : LockInst) :
    Option String × LockInst × Bool :=
  let r := setNX store l.token
  if r.2 then (r.1, { l with acquired := true }, true) else (r.1, l, false)

/-- Embeds RedisLock.release. -/
def release (store : Option String) (l : LockInst) :
    Option String × LockInst × Bool :=
  if !l.acquired then (store, l, false)
  else
    let r := compareAndDelete store l.token
    if r.2 then (r.1, { l with acquired := false }, true) else (r.1, l, false)

/-- An interleaving step of two lock instances a and b on the same key. -/
inductive Action where
  | acquireA | releaseA | acquireB | releaseB
deriving DecidableEq, Repr

structure SysState where
  store : Option String
  a : LockInst
  b : LockInst
deriving DecidableEq, Repr

def stepSys (s : SysState) : Action → SysState
  | .acquireA => let r := tryAcquire s.store s.a; { s with store := r.1, a := r.2.1 }
  | .releaseA => let r := release s.store s.a; { s with store := r.1, a := r.2.1 }
  | .acquireB => let r := tryAcquire s.store s.b; { s with store := r.1, b := r.2.1 }
  | .releaseB => let r := release s.store s.b; { s with store := r.1, b := r.2.1 }

def runSys (s : SysState) (ops : List Action) : SysState := ops.foldl stepSys s

/-- The holder invariant: an instance whose local flag says acquired is the
one whose token is stored. -/
def holderInv (s : SysState) : Prop :=
  (s.a.acquired = true → s.store = some s.a.token) ∧
    (s.b.acquired = true → s.store = some s.b.token)

end RedisLockModel

/-! ## Reconciliation (worker/tasks/reconcile.py _reconcile_trade_plan,
lines 52-131) -/

/-- One Execution row as read by reconciliation. -/
structure ExecutionRec where
  order_type : String
  status : String
  exchange_order_id : Option String
  price : Option ℚ
  quantity : ℚ
deriving DecidableEq, Repr

/-- The TradePlan fields reconciliation reads and writes. -/
structure PlanRec where
  status : String
  entry_price : Option ℚ
deriving DecidableEq, Repr

/-- The order-status payload reconciliation reads per exchange order id. -/
structure ExchangeOrderInfo where
  status : String
  price : Option ℚ
  filled_qty : Option ℚ
deriving DecidableEq, Repr

/-- Embeds the per-execution body of _reconcile_trade_plan (lines 65-108).
The exchange is a map from order id to the info returned; none covers both
a falsy get_order result and a raised lookup error, which the source logs
and skips.  Returns the updated execution and the updated flag. -/
def reconcileExecution (exchange : String → Option ExchangeOrderInfo)
    (e : ExecutionRec) : ExecutionRec × Bool :=
  if e.status == "filled" || e.status == "cancelled" then (e, false)
  else
    match e.exchange_order_id with
    | none => (e, false)
    | some oid =>
      match exchange oid with
      | none => (e, false)
      | some info =>
        let s := info.status.toLower
        if s == "filled" || s == "closed" then
          ({ e with status := "filled"
                    price := (match info.price with
                      | some p => some p
                      | none => e.price) }, true)
        else if s == "cancelled" || s == "canceled" || s == "expired" then
          ({ e with status := "cancelled" }, true)
        else if s == "partially_filled" || s == "partial" then
          ({ e with status := "partially_filled"
                    quantity := (match info.filled_qty with
                      | some q => if q == 0 then e.quantity else q
                      | none => e.quantity) }, true)
        else (e, false)

/-- All entry executions exist and are filled (lines 112-113). -/
def entryFilledCondition (es : List ExecutionRec) : Bool :=
  let l := es.filter (fun e => e.order_type == "entry")
  !l.isEmpty && l.all (fun e => e.status == "filled")

/-- All TP/SL executions exist and are terminal (lines 121-126). -/
def tpSlDoneCondition (es : List ExecutionRec) : Bool :=
  let l := es.filter (fun e => e.order_type == "tp" || e.order_type == "sl")
  !l.isEmpty && l.all (fun e => e.status == "filled" || e.status == "cancelled")

/-- Embeds the plan-status advancement block of _reconcile_trade_plan
(lines 110-129). -/
def updatePlanStatus (p : PlanRec) (es : List ExecutionRec) : PlanRec :=
  let entryExecs := es.filter (fun e => e.order_type == "entry")
  let p1 :=
    if entryFilledCondition es && p.status == "entry_placed" then
      { p with status := "entry_filled"
               entry_price := (match entryExecs.head? with
                 | some e0 => (match e0.price with
                   | some pr => some pr
                   | none => p.entry_price)
                 | none => p.entry_price) }
    else p
  if tpSlDoneCondition es && p1.status == "tp_sl_placed" then
    { p1 with status := "completed" }
  else p1

/-- Embeds _reconcile_trade_plan (lines 52-131) as a pure transformation of
the plan row and its execution rows against a fixed exchange state. -/
def reconcileTradePlan (exchange : String → Option ExchangeOrderInfo)
    (p : PlanRec) (es : List ExecutionRec) : PlanRec × List ExecutionRec :=
  let stepped := es.map (reconcileExecution exchange)
  let es2 := stepped.map Prod.fst
  let updated := stepped.any Prod.snd
  (if updated then updatePlanStatus p es2 else p, es2)

/-- The retryable error classes of the spec: RATE_LIMIT, TIMEOUT, NETWORK. -/
def retryableErrorType (r : ModelResponse) : Prop :=
  r.error_type = some .rateLimited ∨ r.error_type = some .timedOut ∨
    r.error_type = some .network

/-! # Theorems -/

theorem strftimeBucket_congr (t1 t2 : PyDatetime) (h : sameMinute t1 t2) :
    strftimeBucket t1 = strftimeBucket t2 := by
  obtain ⟨h1, h2, h3, h4, h5⟩ := h
  unfold strftimeBucket
  rw [h1, h2, h3, h4, h5]

/-- C1: generate_client_order_id is a pure function of trader, signal and
the minute bucket: timestamps in the same calendar minute always yield the
same id, and (witnessed at a concrete input, the hash being collision
resistant) timestamps in different minutes yield different ids. -/
theorem client_order_id_minute_deterministic :
    (∀ (trader signal : String) (t1 t2 : PyDatetime), sameMinute t1 t2 →
      generate_client_order_id trader signal t1 =
        generate_client_order_id trader signal t2) ∧
    generate_client_order_id "T1" "S1" ⟨2025, 1, 1, 12, 0, 0, 0⟩ ≠
      generate_client_order_id "T1" "S1" ⟨2025, 1, 1, 12, 1, 0, 0⟩ := by
  constructor
  · intro trader signal t1 t2 h
    unfold generate_client_order_id
    rw [strftimeBucket_congr t1 t2 h]
  · decide

/-- Witness for C1 at concrete inputs 49 seconds apart in the same minute. -/
theorem client_order_id_minute_deterministic_witness :
    generate_client_order_id "trader-1" "sig-1" ⟨2025, 6, 1, 9, 30, 5, 0⟩ =
      generate_client_order_id "trader-1" "sig-1" ⟨2025, 6, 1, 9, 30, 54, 99⟩ :=
  client_order_id_minute_deterministic.1 "trader-1" "sig-1" _ _ (by decide)

/-- C6: for every plan whose action is skip or close, RiskManager.check
allows unconditionally, for all risk profiles, account states, prices and
clock values. -/
theorem skip_close_always_allowed :
    ∀ (plan : TradePlanOutput) (profile : RiskProfile) (account : AccountState)
      (price : Option ℚ) (now : Int),
      plan.action = "skip" ∨ plan.action = "close" →
      (check plan profile account price now).allowed = true := by
  intro plan profile account price now h
  unfold check
  rcases h with h | h <;> simp [h]

/-- Witness for C6: a concrete skip plan against a restrictive profile and a
depleted account is allowed. -/
theorem skip_close_always_allowed_witness :
    (check ⟨"skip", none, none, none, none, 1, none, none, none⟩
      ⟨1, some 10, some 1, 0, 3600, some 1, 2, 3, 1, 5⟩
      ⟨0, 99, -1000, []⟩ none 0).allowed = true :=
  skip_close_always_allowed _ _ _ _ _ (Or.inl rfl)

/-- C10: a close-action plan is allowed with no normalized plan, so the
orchestrator's post-risk step (trader.py lines 393-408), which reads
risk_report.normalized_plan.symbol for every allowed non-skip plan,
dereferences None. -/
theorem close_plan_reaches_none_dereference :
    ∀ (plan : TradePlanOutput) (profile : RiskProfile) (account : AccountState)
      (price : Option ℚ) (now : Int),
      plan.action = "close" →
      (check plan profile account price now).allowed = true ∧
      (check plan profile account price now).normalized_plan = none ∧
      postRiskStep (check plan profile account price now) =
        PostRiskResult.noneDereference := by
  intro plan profile account price now h
  unfold check postRiskStep
  simp [h]

/-- Witness for C10 at a concrete close plan. -/
theorem close_plan_reaches_none_dereference_witness :
    postRiskStep (check ⟨"close", some "BTCUSDT", some "long", none, none, 1,
        none, none, none⟩
      ⟨10, none, none, 5, 3600, none, 2, 3, 1/1000, 5⟩
      ⟨1000, 0, 0, []⟩ (some 50000) 0) = PostRiskResult.noneDereference :=
  (close_plan_reaches_none_dereference _ _ _ _ _ rfl).2.2

/-- C3 counterexample: round_quantity uses Python round (half to even), not
truncation, so it rounds 0.1239 up to 0.124, exceeding the input; the
repository's own test suite asserts the same rounding-up behaviour
(round_quantity(Decimal("0.999"), 2) == Decimal("1.0")). -/
theorem round_quantity_exceeds_input :
    round_quantity (1239 / 10000) 3 = 124 / 1000 ∧
      ¬ round_quantity (1239 / 10000) 3 ≤ 1239 / 10000 ∧
      round_quantity (999 / 1000) 2 = 1 := by
  unfold round_quantity quantizeHalfEven halfEven
  norm_num

theorem halfEven_le_add_half (q : ℚ) : (halfEven q : ℚ) ≤ q + 1 / 2 := by
  have hfl : ((⌊q⌋ : ℤ) : ℚ) ≤ q := Int.floor_le q
  unfold halfEven
  by_cases h1 : q - ⌊q⌋ < 1 / 2
  · simp only [h1, if_true]
    linarith
  · by_cases h2 : 1 / 2 < q - ⌊q⌋
    · simp only [h1, if_false, h2, if_true]
      push_cast
      linarith
    · have heq : q - ⌊q⌋ = 1 / 2 := le_antisymm (not_lt.mp h2) (not_lt.mp h1)
      by_cases h3 : (⌊q⌋ : ℤ) % 2 = 0
      · simp only [h1, if_false, h2, if_false, h3, if_true]
        linarith
      · simp only [h1, if_false, h2, if_false, h3, if_false]
        push_cast
        linarith

/-- C3 amended: round_quantity(0.12345, 3) = 0.123 holds, but the rounding
policy is round-half-to-even, which can exceed the input by up to half a
step of the target precision (truncation toward zero appears only in
RiskManager._calculate_quantity). -/
theorem round_quantity_half_step_bound :
    (∀ (x : ℚ) (p : Nat), round_quantity x p ≤ x + 1 / (2 * 10 ^ p)) ∧
      round_quantity (12345 / 100000) 3 = 123 / 1000 := by
  constructor
  · intro x p
    have hpos : (0 : ℚ) < 10 ^ p := by positivity
    have hb := halfEven_le_add_half (x * 10 ^ p)
    calc round_quantity x p = (halfEven (x * 10 ^ p) : ℚ) / 10 ^ p := rfl
      _ ≤ (x * 10 ^ p + 1 / 2) / 10 ^ p := by gcongr
      _ = x + 1 / (2 * 10 ^ p) := by field_simp; ring
  · unfold round_quantity quantizeHalfEven halfEven
    norm_num

/-- C5: with the configured maximum of 3 attempts, an AUTH or QUOTA error on
the first call short-circuits after exactly one generate call returning that
response; retryable errors on attempts 1-2 followed by success on attempt 3
make exactly 3 calls returning the success; three retryable errors exhaust
the attempts, returning the last error response (the loop itself is a total
function: it never raises). -/
theorem generate_with_retry_call_counts :
    (∀ (gen : Nat → GenOutcome) (r : ModelResponse),
        gen 0 = GenOutcome.resp r → r.success = false →
        (r.error_type = some .auth ∨ r.error_type = some .quota) →
        generate_with_retry gen 3 = (r, 1)) ∧
    (∀ (gen : Nat → GenOutcome) (r0 r1 r2 : ModelResponse),
        gen 0 = GenOutcome.resp r0 → gen 1 = GenOutcome.resp r1 →
        gen 2 = GenOutcome.resp r2 →
        r0.success = false → r1.success = false →
        retryableErrorType r0 → retryableErrorType r1 →
        r2.success = true →
        generate_with_retry gen 3 = (r2, 3)) ∧
    (∀ (gen : Nat → GenOutcome) (r0 r1 r2 : ModelResponse),
        gen 0 = GenOutcome.resp r0 → gen 1 = GenOutcome.resp r1 →
        gen 2 = GenOutcome.resp r2 →
        r0.success = false → r1.success = false → r2.success = false →
        retryableErrorType r0 → retryableErrorType r1 → retryableErrorType r2 →
        generate_with_retry gen 3 = (r2, 3)) := by
  refine ⟨?_, ?_, ?_⟩
  · intro gen r h0 hs he
    rcases he with he | he <;>
      simp [generate_with_retry, generateWithRetryGo, h0, hs, he]
  · intro gen r0 r1 r2 h0 h1 h2 hs0 hs1 he0 he1 hs2
    rcases he0 with he0 | he0 | he0 <;> rcases he1 with he1 | he1 | he1 <;>
      simp [generate_with_retry, generateWithRetryGo, h0, h1, h2, hs0, hs1,
        hs2, he0, he1]
  · intro gen r0 r1 r2 h0 h1 h2 hs0 hs1 hs2 he0 he1 he2
    rcases he0 with he0 | he0 | he0 <;> rcases he1 with he1 | he1 | he1 <;>
      rcases he2 with he2 | he2 | he2 <;>
      simp [generate_with_retry, generateWithRetryGo, h0, h1, h2, hs0, hs1,
        hs2, he0, he1, he2]

/-- Witness for C5 at concrete adapters: a constant QUOTA-erroring generate
is called once; two timeouts then a success are called three times. -/
theorem generate_with_retry_call_counts_witness :
    generate_with_retry
        (fun _ => GenOutcome.resp ⟨false, none, some .quota, some "quota exceeded"⟩) 3 =
      (⟨false, none, some .quota, some "quota exceeded"⟩, 1) ∧
    generate_with_retry
        (fun n => if n < 2 then GenOutcome.resp ⟨false, none, some .timedOut, none⟩
                  else GenOutcome.resp ⟨true, some "plan", none, none⟩) 3 =
      (⟨true, some "plan", none, none⟩, 3) :=
  ⟨generate_with_retry_call_counts.1 _ _ rfl rfl (Or.inr rfl),
   generate_with_retry_call_counts.2.1 _ _ _ _ rfl rfl rfl rfl rfl
     (Or.inr (Or.inl rfl)) (Or.inr (Or.inl rfl)) rfl⟩

/-- C7 counterexample: a transport-level exception (httpx connect error or
timeout) is not caught by the placement methods, which handle only
httpx.HTTPStatusError, so it propagates to the caller instead of becoming an
OrderResult with success=false. -/
theorem place_order_transport_error_propagates :
    place_market_order (ReqOutcome.transportExc "connection refused") =
      Except.error "connection refused" ∧
    place_take_profit (ReqOutcome.transportExc "connection refused") =
      Except.error "connection refused" ∧
    place_stop_loss (ReqOutcome.transportExc "connection refused") =
      Except.error "connection refused" :=
  ⟨rfl, rfl, rfl⟩

/-- C7 amended: every API-level failure (an HTTP error status raised as
httpx.HTTPStatusError) is converted by all three placement methods into an
OrderResult with success=false carrying the status code and body, and a
parsed 2xx response is returned without exception; only transport-level
exceptions propagate. -/
theorem place_order_http_errors_converted :
    ∀ (code : Nat) (text : String) (d : OrderData),
      place_market_order (ReqOutcome.httpStatusError code text) =
        Except.ok (httpErrorOrderResult code text) ∧
      place_take_profit (ReqOutcome.httpStatusError code text) =
        Except.ok (httpErrorOrderResult code text) ∧
      place_stop_loss (ReqOutcome.httpStatusError code text) =
        Except.ok (httpErrorOrderResult code text) ∧
      (httpErrorOrderResult code text).success = false ∧
      (httpErrorOrderResult code text).error_code = some (toString code) ∧
      (httpErrorOrderResult code text).error_message = some text ∧
      place_market_order (ReqOutcome.ok d) = Except.ok (parseOrderResult d true) ∧
      place_take_profit (ReqOutcome.ok d) = Except.ok (parseOrderResult d true) ∧
      place_stop_loss (ReqOutcome.ok d) = Except.ok (parseOrderResult d true) :=
  fun _ _ _ => ⟨rfl, rfl, rfl, rfl, rfl, rfl, rfl, rfl, rfl⟩

/-- C2: entry order placed and filled (exchange status FILLED, fill price
50000), then take-profit placement raises a transport-level network error.
The except handler of _execute_trade overwrites the plan status with
"failed" (the entry price and the error message are retained), so the
persisted TradePlan does not end in "entry_filled" as the spec requires —
and a "failed" plan falls outside reconcile.py's non-terminal status filter,
hiding the live position from reconciliation. -/
theorem execute_trade_tp_exception_overwrites_entry_filled :
    (executeTrade
        ⟨some "BTCUSDT", some "long", some (1/10), 5, "market", none,
          some 51000, some 49000, none⟩
        false "Tabc123"
        ⟨ReqOutcome.ok ⟨none, none, none, none, none⟩,
         ReqOutcome.ok ⟨some "o-1", some "Tabc123", some "FILLED",
           some (1/10), some 50000⟩,
         ReqOutcome.transportExc "connection reset by peer",
         ReqOutcome.ok ⟨none, none, none, none, none⟩⟩).1.status = "failed" ∧
    (executeTrade
        ⟨some "BTCUSDT", some "long", some (1/10), 5, "market", none,
          some 51000, some 49000, none⟩
        false "Tabc123"
        ⟨ReqOutcome.ok ⟨none, none, none, none, none⟩,
         ReqOutcome.ok ⟨some "o-1", some "Tabc123", some "FILLED",
           some (1/10), some 50000⟩,
         ReqOutcome.transportExc "connection reset by peer",
         ReqOutcome.ok ⟨none, none, none, none, none⟩⟩).1.entry_price =
      some 50000 ∧
    (executeTrade
        ⟨some "BTCUSDT", some "long", some (1/10), 5, "market", none,
          some 51000, some 49000, none⟩
        false "Tabc123"
        ⟨ReqOutcome.ok ⟨none, none, none, none, none⟩,
         ReqOutcome.ok ⟨some "o-1", some "Tabc123", some "FILLED",
           some (1/10), some 50000⟩,
         ReqOutcome.transportExc "connection reset by peer",
         ReqOutcome.ok ⟨none, none, none, none, none⟩⟩).1.error_message =
      some "connection reset by peer" := by
  refine ⟨by decide, by decide, by decide⟩

namespace RedisLockModel

theorem tryAcquire_token (store : Option String) (l : LockInst) :
    (tryAcquire store l).2.1.token = l.token := by
  unfold tryAcquire setNX
  cases store <;> simp

theorem release_token (store : Option String) (l : LockInst) :
    (release store l).2.1.token = l.token := by
  unfold release compareAndDelete
  by_cases h : l.acquired
  · cases store with
    | none => simp [h]
    | some t => by_cases ht : t == l.token <;> simp [h, ht]
  · simp [h]

theorem step_preserves_tokens (s : SysState) (act : Action) :
    (stepSys s act).a.token = s.a.token ∧
      (stepSys s act).b.token = s.b.token := by
  cases act <;>
    simp [stepSys, tryAcquire_token, release_token]

theorem step_preserves_inv (s : SysState) (hd : s.a.token ≠ s.b.token)
    (hi : holderInv s) (act : Action) : holderInv (stepSys s act) := by
  obtain ⟨hia, hib⟩ := hi
  cases act with
  | acquireA =>
    cases hst : s.store with
    | none =>
      constructor
      · intro _
        simp [stepSys, tryAcquire, setNX, hst]
      · intro hb
        have : s.b.acquired = true := by
          simpa [stepSys, tryAcquire, setNX, hst] using hb
        exact absurd (hib this) (by simp [hst])
    | some t =>
      constructor
      · intro ha
        have : s.a.acquired = true := by
          simpa [stepSys, tryAcquire, setNX, hst] using ha
        simpa [stepSys, tryAcquire, setNX, hst] using hia this
      · intro hb
        have : s.b.acquired = true := by
          simpa [stepSys, tryAcquire, setNX, hst] using hb
        simpa [stepSys, tryAcquire, setNX, hst] using hib this
  | acquireB =>
    cases hst : s.store with
    | none =>
      constructor
      · intro ha
        have : s.a.acquired = true := by
          simpa [stepSys, tryAcquire, setNX, hst] using ha
        exact absurd (hia this) (by simp [hst])
      · intro _
        simp [stepSys, tryAcquire, setNX, hst]
    | some t =>
      constructor
      · intro ha
        have : s.a.acquired = true := by
          simpa [stepSys, tryAcquire, setNX, hst] using ha
        simpa [stepSys, tryAcquire, setNX, hst] using hia this
      · intro hb
        have : s.b.acquired = true := by
          simpa [stepSys, tryAcquire, setNX, hst] using hb
        simpa [stepSys, tryAcquire, setNX, hst] using hib this
  | releaseA =>
    by_cases ha : s.a.acquired
    · have hst := hia ha
      constructor
      · intro ha2
        exact absurd ha2 (by simp [stepSys, release, compareAndDelete, ha, hst])
      · intro hb
        have hb0 : s.b.acquired = true := by
          simpa [stepSys, release, compareAndDelete, ha, hst] using hb
        have := hib hb0
        rw [hst] at this
        exact absurd (Option.some_injective _ this) hd
    · constructor
      · intro ha2
        have : s.a.acquired = true := by
          simpa [stepSys, release, ha] using ha2
        exact absurd this (by simp [ha])
      · intro hb
        have hb0 : s.b.acquired = true := by
          simpa [stepSys, release, ha] using hb
        simpa [stepSys, release, ha] using hib hb0
  | releaseB =>
    by_cases hb : s.b.acquired
    · have hst := hib hb
      constructor
      · intro ha2
        have ha0 : s.a.acquired = true := by
          simpa [stepSys, release, compareAndDelete, hb, hst] using ha2
        have := hia ha0
        rw [hst] at this
        exact absurd (Option.some_injective _ this).symm hd
      · intro hb2
        exact absurd hb2 (by simp [stepSys, release, compareAndDelete, hb, hst])
    · constructor
      · intro ha2
        have ha0 : s.a.acquired = true := by
          simpa [stepSys, release, hb] using ha2
        simpa [stepSys, release, hb] using hia ha0
      · intro hb2
        have : s.b.acquired = true := by
          simpa [stepSys, release, hb] using hb2
        exact absurd this (by simp [hb])

end RedisLockModel

/-- C8: release is a compare-and-delete keyed by the holder's random token:
a release by a party whose token does not match the stored one leaves the
lock in place and reports failure; and along every interleaving of
operations of two lock instances with distinct tokens, the holder invariant
(whoever is marked acquired is the party whose token is stored) is
preserved, so a held lock is only ever removed by its holder. -/
theorem redis_lock_release_only_by_holder :
    (∀ (store : Option String) (l : RedisLockModel.LockInst) (t : String),
        store = some t → l.token ≠ t →
        (RedisLockModel.release store l).1 = store ∧
          (RedisLockModel.release store l).2.2 = false) ∧
    (∀ (s : RedisLockModel.SysState) (ops : List RedisLockModel.Action),
        s.a.token ≠ s.b.token → RedisLockModel.holderInv s →
        RedisLockModel.holderInv (RedisLockModel.runSys s ops)) := by
  constructor
  · intro store l t hst hne
    subst hst
    unfold RedisLockModel.release RedisLockModel.compareAndDelete
    have hbeq : (t == l.token) = false := by
      simp [BEq.beq]
      exact fun h => hne h.symm
    by_cases h : l.acquired <;> simp [h, hbeq]
  · intro s ops
    induction ops generalizing s with
    | nil => intro _ hi; exact hi
    | cons op rest ih =>
      intro hd hi
      have ht := RedisLockModel.step_preserves_tokens s op
      exact ih _ (by rw [ht.1, ht.2]; exact hd)
        (RedisLockModel.step_preserves_inv s hd hi op)

/-- Witness for C8: a concrete non-holder release (stored token differs from
the releasing instance's token) leaves the stored token in place, and the
invariant transports across a concrete interleaving. -/
theorem redis_lock_release_only_by_holder_witness :
    (RedisLockModel.release (some "tok-a") ⟨"tok-b", true⟩).1 = some "tok-a" ∧
    RedisLockModel.holderInv
      (RedisLockModel.runSys ⟨none, ⟨"tok-a", false⟩, ⟨"tok-b", false⟩⟩
        [RedisLockModel.Action.acquireA, RedisLockModel.Action.releaseB,
         RedisLockModel.Action.acquireB, RedisLockModel.Action.releaseA]) :=
  ⟨(redis_lock_release_only_by_holder.1 (some "tok-a") ⟨"tok-b", true⟩ "tok-a"
      rfl (by decide)).1,
   redis_lock_release_only_by_holder.2 _ _ (by decide) ⟨by simp, by simp⟩⟩

theorem check_open_reasons_eq (plan : TradePlanOutput) (profile : RiskProfile)
    (account : AccountState) (price : Option ℚ) (now : Int)
    (ha : plan.action = "open") (hsym : truthyStr plan.symbol = true)
    (hside : truthyStr plan.side = true)
    (hps : plan.position_size.isSome = true) :
    (check plan profile account price now).reasons =
      openReasons plan profile account price now
        (calculateQuantity plan profile price) := by
  obtain ⟨ps, hps'⟩ := Option.isSome_iff_exists.mp hps
  unfold check
  by_cases he :
      (openReasons plan profile account price now
        (calculateQuantity plan profile price)).isEmpty
  · simp [ha, hsym, hside, hps', he, List.isEmpty_iff.mp he]
  · simp [ha, hsym, hside, hps', he]

theorem check_open_blocked (plan : TradePlanOutput) (profile : RiskProfile)
    (account : AccountState) (price : Option ℚ) (now : Int)
    (ha : plan.action = "open") (hsym : truthyStr plan.symbol = true)
    (hside : truthyStr plan.side = true)
    (hps : plan.position_size.isSome = true)
    (hne : openReasons plan profile account price now
      (calculateQuantity plan profile price) ≠ []) :
    check plan profile account price now =
      ⟨false, openReasons plan profile account price now
        (calculateQuantity plan profile price), none⟩ := by
  obtain ⟨ps, hps'⟩ := Option.isSome_iff_exists.mp hps
  unfold check
  have he : (openReasons plan profile account price now
      (calculateQuantity plan profile price)).isEmpty = false := by
    simpa [List.isEmpty_iff] using hne
  simp [ha, hsym, hside, hps', he]

/-- C4 amended: for an open-action plan that carries symbol, side and
position_size (truthily present, as the validator guarantees for open
plans), every independently violated risk check contributes its own reason —
none is short-circuited — and any violation yields allowed=false with no
normalized plan.  (The claim as stated over all open plans fails only on the
missing-required-fields early return, see the counterexample.) -/
theorem risk_check_collects_all_violations :
    ∀ (plan : TradePlanOutput) (profile : RiskProfile) (account : AccountState)
      (price : Option ℚ) (now : Int),
      plan.action = "open" → truthyStr plan.symbol = true →
      truthyStr plan.side = true → plan.position_size.isSome = true →
      (profile.max_leverage < plan.leverage →
        RiskReason.leverageExceedsMax plan.leverage profile.max_leverage ∈
          (check plan profile account price now).reasons) ∧
      (profile.max_concurrent_positions ≤ account.open_positions →
        RiskReason.maxConcurrentReached profile.max_concurrent_positions ∈
          (check plan profile account price now).reasons) ∧
      (calculateQuantity plan profile price = none →
        RiskReason.couldNotCalcQuantity ∈
          (check plan profile account price now).reasons) ∧
      (∀ (q maxN p : ℚ), calculateQuantity plan profile price = some q →
        profile.max_position_notional = some maxN → price = some p →
        maxN ≠ 0 → p ≠ 0 → maxN < q * p →
        RiskReason.notionalExceedsMax (q * p) maxN ∈
          (check plan profile account price now).reasons) ∧
      (∀ (q maxQ : ℚ), calculateQuantity plan profile price = some q →
        profile.max_position_qty = some maxQ → maxQ ≠ 0 → maxQ < q →
        RiskReason.qtyExceedsMax q maxQ ∈
          (check plan profile account price now).reasons) ∧
      (∀ (q : ℚ), calculateQuantity plan profile price = some q →
        q < profile.min_quantity →
        RiskReason.qtyBelowMin q profile.min_quantity ∈
          (check plan profile account price now).reasons) ∧
      (∀ (q p : ℚ), calculateQuantity plan profile price = some q →
        price = some p → p ≠ 0 → q * p < profile.min_notional →
        RiskReason.notionalBelowMin (q * p) profile.min_notional ∈
          (check plan profile account price now).reasons) ∧
      (∀ (cap : ℚ), profile.daily_loss_cap = some cap → cap ≠ 0 →
        account.current_daily_pnl < -cap →
        RiskReason.dailyLossCapExceeded cap ∈
          (check plan profile account price now).reasons) ∧
      (checkCooldown plan.symbol plan.side account.recent_trades
          profile.cooldown_seconds now ≠ none →
        RiskReason.cooldownActive plan.symbol plan.side
            profile.cooldown_seconds ∈
          (check plan profile account price now).reasons) ∧
      (∀ (q p : ℚ), calculateQuantity plan profile price = some q →
        price = some p → q ≠ 0 → p ≠ 0 → plan.leverage ≠ 0 →
        account.available_balance < q * p / (plan.leverage : ℚ) →
        RiskReason.insufficientMargin (q * p / (plan.leverage : ℚ))
            account.available_balance ∈
          (check plan profile account price now).reasons) ∧
      ((check plan profile account price now).reasons ≠ [] →
        (check plan profile account price now).allowed = false ∧
        (check plan profile account price now).normalized_plan = none) := by
  intro plan profile account price now ha hsym hside hps
  have hre := check_open_reasons_eq plan profile account price now ha hsym hside hps
  refine ⟨?_, ?_, ?_, ?_, ?_, ?_, ?_, ?_, ?_, ?_, ?_⟩
  · intro h
    rw [hre]
    unfold openReasons
    rw [if_pos h]
    simp
  · intro h
    rw [hre]
    unfold openReasons
    rw [if_pos h]
    simp
  · intro h
    rw [hre, h]
    unfold openReasons
    simp
  · intro q maxN p hq hmn hp hmn0 hp0 hlt
    rw [hre, hq, hp]
    unfold openReasons
    rw [hmn]
    simp [hmn0, hp0, hlt]
  · intro q maxQ hq hmq hmq0 hlt
    rw [hre, hq]
    unfold openReasons
    rw [hmq]
    simp [hmq0, hlt]
  · intro q hq hlt
    rw [hre, hq]
    unfold openReasons
    simp [hlt]
  · intro q p hq hp hp0 hlt
    rw [hre, hq, hp]
    unfold openReasons
    simp [hp0, hlt]
  · intro cap hcap hcap0 hlt
    rw [hre]
    unfold openReasons
    rw [hcap]
    simp [hcap0, hlt]
  · intro h
    rw [hre]
    unfold openReasons
    rcases ho : checkCooldown plan.symbol plan.side account.recent_trades
        profile.cooldown_seconds now with _ | r
    · exact absurd ho h
    · have : r = RiskReason.cooldownActive plan.symbol plan.side
          profile.cooldown_seconds := by
        unfold checkCooldown at ho
        by_cases hc : account.recent_trades.any (fun tr =>
            tr.symbol == plan.symbol && tr.side == plan.side &&
              decide (now - profile.cooldown_seconds < tr.created_at))
        · rw [if_pos hc] at ho
          exact (Option.some_injective _ ho).symm
        · rw [if_neg hc] at ho
          exact absurd ho.symm (by simp)
      rw [this]
      simp
  · intro q p hq hp hq0 hp0 hl0 hlt
    rw [hre, hq, hp]
    unfold openReasons
    simp [hq0, hp0, hl0, hlt]
  · intro h
    rw [hre] at h
    have := check_open_blocked plan profile account price now ha hsym hside hps h
    rw [this]
    exact ⟨rfl, rfl⟩

/-- C4 counterexample: an open plan missing its symbol while also violating
the leverage limit (20 against max 10) is rejected through the early
missing-fields return with that single reason — the violated leverage check
contributes no entry, so the reasons list does not contain one entry per
independently violated check for every open plan. -/
theorem risk_check_missing_fields_short_circuit :
    check ⟨"open", none, none, none, none, 20, none, none, none⟩
        ⟨10, none, none, 5, 3600, none, 2, 3, 1/1000, 5⟩ ⟨1000, 0, 0, []⟩
        none 0 =
      ⟨false, [RiskReason.missingFields], none⟩ ∧
    (⟨10, none, none, 5, 3600, none, 2, 3, 1/1000, 5⟩ :
        RiskProfile).max_leverage <
      (⟨"open", none, none, none, none, 20, none, none, none⟩ :
        TradePlanOutput).leverage ∧
    (∀ (l m : Int), RiskReason.leverageExceedsMax l m ∉
      (check ⟨"open", none, none, none, none, 20, none, none, none⟩
        ⟨10, none, none, 5, 3600, none, 2, 3, 1/1000, 5⟩ ⟨1000, 0, 0, []⟩
        none 0).reasons) := by
  have h1 : check ⟨"open", none, none, none, none, 20, none, none, none⟩
      ⟨10, none, none, 5, 3600, none, 2, 3, 1/1000, 5⟩ ⟨1000, 0, 0, []⟩
      none 0 = ⟨false, [RiskReason.missingFields], none⟩ := by decide
  refine ⟨h1, by norm_num, ?_⟩
  intro l m hmem
  rw [h1] at hmem
  simp at hmem

/-- Witness for C4 (Scenario A strengthened): a plan violating both the
leverage limit (20 against 10) and the concurrent-position limit (3 open of
max 3) yields both reasons, allowed=false and no normalized plan. -/
theorem risk_check_collects_all_violations_witness :
    RiskReason.leverageExceedsMax 20 10 ∈
      (check ⟨"open", some "BTCUSDT", some "long", some ⟨"market", none⟩,
          some ⟨"notional", 100⟩, 20, none, none, none⟩
        ⟨10, none, none, 3, 3600, none, 2, 3, 1/1000, 5⟩ ⟨1000, 3, 0, []⟩
        (some 50000) 0).reasons ∧
    RiskReason.maxConcurrentReached 3 ∈
      (check ⟨"open", some "BTCUSDT", some "long", some ⟨"market", none⟩,
          some ⟨"notional", 100⟩, 20, none, none, none⟩
        ⟨10, none, none, 3, 3600, none, 2, 3, 1/1000, 5⟩ ⟨1000, 3, 0, []⟩
        (some 50000) 0).reasons ∧
    (check ⟨"open", some "BTCUSDT", some "long", some ⟨"market", none⟩,
          some ⟨"notional", 100⟩, 20, none, none, none⟩
        ⟨10, none, none, 3, 3600, none, 2, 3, 1/1000, 5⟩ ⟨1000, 3, 0, []⟩
        (some 50000) 0).allowed = false ∧
    (check ⟨"open", some "BTCUSDT", some "long", some ⟨"market", none⟩,
          some ⟨"notional", 100⟩, 20, none, none, none⟩
        ⟨10, none, none, 3, 3600, none, 2, 3, 1/1000, 5⟩ ⟨1000, 3, 0, []⟩
        (some 50000) 0).normalized_plan = none := by
  have T := risk_check_collects_all_violations
    ⟨"open", some "BTCUSDT", some "long", some ⟨"market", none⟩,
      some ⟨"notional", 100⟩, 20, none, none, none⟩
    ⟨10, none, none, 3, 3600, none, 2, 3, 1/1000, 5⟩ ⟨1000, 3, 0, []⟩
    (some 50000) 0 rfl (by decide) (by decide) rfl
  have h1 := T.1 (by norm_num)
  have h2 := T.2.1 (by norm_num)
  have h3 := T.2.2.2.2.2.2.2.2.2.2 (List.ne_nil_of_mem h1)
  exact ⟨h1, h2, h3.1, h3.2⟩

theorem reconcileExecution_stable (x : String → Option ExchangeOrderInfo)
    (e : ExecutionRec) :
    (reconcileExecution x (reconcileExecution x e).1).1 =
        (reconcileExecution x e).1 ∧
      ((reconcileExecution x (reconcileExecution x e).1).2 = true →
        (reconcileExecution x e).2 = true) := by
  by_cases h0 : (e.status == "filled" || e.status == "cancelled") = true
  · constructor <;> simp [reconcileExecution, h0]
  · cases hoid : e.exchange_order_id with
    | none => constructor <;> simp [reconcileExecution, h0, hoid]
    | some oid =>
      cases hinfo : x oid with
      | none => constructor <;> simp [reconcileExecution, h0, hoid, hinfo]
      | some info =>
        by_cases hs1 : (info.status.toLower == "filled" ||
            info.status.toLower == "closed") = true
        · constructor <;> simp [reconcileExecution, h0, hoid, hinfo, hs1]
        · by_cases hs2 : (info.status.toLower == "cancelled" ||
              info.status.toLower == "canceled" ||
              info.status.toLower == "expired") = true
          · constructor <;>
              simp [reconcileExecution, h0, hoid, hinfo, hs1, hs2]
          · by_cases hs3 : (info.status.toLower == "partially_filled" ||
                info.status.toLower == "partial") = true
            · constructor
              · simp only [reconcileExecution, h0, hoid, hinfo, hs1, hs2, hs3]
                cases hfq : info.filled_qty with
                | none => simp [hs1, hs2, hs3, hoid, hinfo, hfq]
                | some q =>
                  by_cases hq0 : (q == 0) = true <;>
                    simp [hs1, hs2, hs3, hoid, hinfo, hfq, hq0]
              · simp [reconcileExecution, h0, hoid, hinfo, hs1, hs2, hs3]
            · constructor <;>
              simp [reconcileExecution, h0, hoid, hinfo, hs1, hs2, hs3]

theorem reconcile_list_stable (x : String → Option ExchangeOrderInfo) :
    ∀ es : List ExecutionRec,
    (((es.map (reconcileExecution x)).map Prod.fst).map
        (reconcileExecution x)).map Prod.fst =
      (es.map (reconcileExecution x)).map Prod.fst ∧
    ((((es.map (reconcileExecution x)).map Prod.fst).map
        (reconcileExecution x)).any Prod.snd = true →
      ((es.map (reconcileExecution x)).any Prod.snd) = true)
  | [] => ⟨rfl, by simp⟩
  | e :: es => by
    obtain ⟨ih1, ih2⟩ := reconcile_list_stable x es
    obtain ⟨h1, h2⟩ := reconcileExecution_stable x e
    constructor
    · simp only [List.map_cons]
      rw [h1, ih1]
    · simp only [List.map_cons, List.any_cons, Bool.or_eq_true]
      rintro (hh | ht)
      · exact Or.inl (h2 hh)
      · exact Or.inr (ih2 ht)

theorem updatePlanStatus_cases (p : PlanRec) (es : List ExecutionRec) :
    (updatePlanStatus p es).status = p.status ∨
      (p.status = "entry_placed" ∧
        (updatePlanStatus p es).status = "entry_filled" ∧
        entryFilledCondition es = true) ∨
      (p.status = "tp_sl_placed" ∧
        (updatePlanStatus p es).status = "completed" ∧
        tpSlDoneCondition es = true) := by
  unfold updatePlanStatus
  by_cases hc1 : (entryFilledCondition es && (p.status == "entry_placed")) = true
  · obtain ⟨he, hst⟩ := Bool.and_eq_true_iff.mp hc1
    refine Or.inr (Or.inl ⟨by simpa using hst, ?_, he⟩)
    simp [hc1]
  · by_cases hc2 : (tpSlDoneCondition es && (p.status == "tp_sl_placed")) = true
    · obtain ⟨he, hst⟩ := Bool.and_eq_true_iff.mp hc2
      refine Or.inr (Or.inr ⟨by simpa using hst, ?_, he⟩)
      simp [hc1, hc2]
    · left
      simp [hc1, hc2]

theorem updatePlanStatus_idem (p : PlanRec) (es : List ExecutionRec) :
    updatePlanStatus (updatePlanStatus p es) es = updatePlanStatus p es := by
  unfold updatePlanStatus
  by_cases hc1 : (entryFilledCondition es && (p.status == "entry_placed")) = true
  · simp [hc1]
  · by_cases hc2 : (tpSlDoneCondition es && (p.status == "tp_sl_placed")) = true
    · simp [hc1, hc2]
    · simp [hc1, hc2]

/-- C9: reconciliation never moves a TradePlan's status backward: against
any exchange state, _reconcile_trade_plan leaves the status unchanged, or
advances entry_placed to entry_filled exactly when all entry executions are
filled, or advances tp_sl_placed to completed exactly when all TP/SL
executions are terminal; and applying it twice against the same exchange
state equals applying it once. -/
theorem reconcile_monotonic_idempotent :
    ∀ (x : String → Option ExchangeOrderInfo) (p : PlanRec)
      (es : List ExecutionRec),
      ((reconcileTradePlan x p es).1.status = p.status ∨
        (p.status = "entry_placed" ∧
          (reconcileTradePlan x p es).1.status = "entry_filled" ∧
          entryFilledCondition (reconcileTradePlan x p es).2 = true) ∨
        (p.status = "tp_sl_placed" ∧
          (reconcileTradePlan x p es).1.status = "completed" ∧
          tpSlDoneCondition (reconcileTradePlan x p es).2 = true)) ∧
      reconcileTradePlan x (reconcileTradePlan x p es).1
          (reconcileTradePlan x p es).2 =
        reconcileTradePlan x p es := by
  intro x p es
  obtain ⟨hstab, hany⟩ := reconcile_list_stable x es
  have hfst : (reconcileTradePlan x p es).1 =
      (if ((es.map (reconcileExecution x)).any Prod.snd) = true then
        updatePlanStatus p ((es.map (reconcileExecution x)).map Prod.fst)
      else p) := rfl
  have hsnd : (reconcileTradePlan x p es).2 =
      (es.map (reconcileExecution x)).map Prod.fst := rfl
  constructor
  · by_cases hu : ((es.map (reconcileExecution x)).any Prod.snd) = true
    · rw [hfst, hsnd, if_pos hu]
      exact updatePlanStatus_cases p _
    · left
      rw [hfst, if_neg hu]
  · rw [Prod.ext_iff]
    constructor
    · have hfst2 : (reconcileTradePlan x (reconcileTradePlan x p es).1
          (reconcileTradePlan x p es).2).1 =
          (if ((((reconcileTradePlan x p es).2).map
              (reconcileExecution x)).any Prod.snd) = true then
            updatePlanStatus (reconcileTradePlan x p es).1
              ((((reconcileTradePlan x p es).2).map
                (reconcileExecution x)).map Prod.fst)
          else (reconcileTradePlan x p es).1) := rfl
      rw [hfst2]
      by_cases hu2 : (((reconcileTradePlan x p es).2.map
          (reconcileExecution x)).any Prod.snd) = true
      · rw [if_pos hu2]
        have hu1 : ((es.map (reconcileExecution x)).any Prod.snd) = true := by
          apply hany
          rw [hsnd] at hu2
          exact hu2
        have hes3 : (((reconcileTradePlan x p es).2).map
            (reconcileExecution x)).map Prod.fst =
            (es.map (reconcileExecution x)).map Prod.fst := by
          rw [hsnd]
          exact hstab
        rw [hes3, hfst, if_pos hu1]
        exact updatePlanStatus_idem p _
      · rw [if_neg hu2]
    · have hsnd2 : (reconcileTradePlan x (reconcileTradePlan x p es).1
          (reconcileTradePlan x p es).2).2 =
          (((reconcileTradePlan x p es).2).map
            (reconcileExecution x)).map Prod.fst := rfl
      rw [hsnd2, hsnd]
      exact hstab
